import Mathlib

/-!
Verification of the typed compute-graph schema of the indexify HTTP layer
(src/src/http_objects.rs): the polymorphic node model, the graph schema,
the bidirectional wire/internal conversions, and the API error taxonomy.

The internal `data_model` crate and the serde-derived wire codec are not
part of the shown source; their shapes are modelled from the spec and from
how `http_objects.rs` uses them, and every such definition is marked
`Modelled from the spec:` in its doc comment.  Rust `HashMap`s are embedded
as association lists; the iterate-and-insert loops of the source become
`List.map` over the entries.
-/

namespace Indexify

/-! ### JSON values (the wire encoding) -/

/-- Modelled from the spec: the JSON-equivalent wire encoding consumed and
produced by the serde-derived codec.  Objects are association lists of
fields. -/
inductive Json where
  | null : Json
  | bool (b : Bool) : Json
  | num (n : Nat) : Json
  | str (s : String) : Json
  | arr (elems : List Json) : Json
  | obj (fields : List (String × Json)) : Json

/-- Field lookup on a JSON object; `none` on non-objects. -/
def Json.lookupField : Json → String → Option Json
  | Json.obj fields, key => List.lookup key fields
  | _, _ => none

/-! ### HTTP status codes used by the error type -/

namespace StatusCode

def BAD_REQUEST : Nat := 400

def NOT_FOUND : Nat := 404

def INTERNAL_SERVER_ERROR : Nat := 500

end StatusCode

/-! ### IndexifyAPIError (src/src/http_objects.rs lines 12-58) -/

structure IndexifyAPIError where
  status_code : Nat
  message : String
  deriving DecidableEq

namespace IndexifyAPIError

def new (status_code : Nat) (message : String) : IndexifyAPIError :=
  { status_code := status_code, message := message }

def internal_error (e : String) : IndexifyAPIError :=
  new StatusCode.INTERNAL_SERVER_ERROR e

def internal_error_str (e : String) : IndexifyAPIError :=
  new StatusCode.INTERNAL_SERVER_ERROR e

def not_found (message : String) : IndexifyAPIError :=
  new StatusCode.NOT_FOUND message

def bad_request (message : String) : IndexifyAPIError :=
  new StatusCode.BAD_REQUEST message

/-- Mirrors `impl From<serde_json::Error> for IndexifyAPIError`: the parser error
message, surfaced as a bad request. -/
def from_serde_json_error (e : String) : IndexifyAPIError :=
  bad_request e

end IndexifyAPIError

/-! ### The internal data model.

Modelled from the spec: the `data_model` crate is an external collaborator
of the shown source; its record fields are exactly the ones read and
written by the conversions in `http_objects.rs`. -/

namespace data_model

/-- Modelled from the spec: the `Default::default()` value of the internal
placement-constraints field, an internal-only list of constraints that the
wire form never carries; its default is the empty list. -/
def defaultPlacementConstraints : List String := []

/-- Modelled from the spec: internal compute function.  The field set is
the one written by `From<ComputeFn> for data_model::ComputeFn`. -/
structure ComputeFn where
  name : String
  fn_name : String
  description : String
  placement_constraints : List String
  reducer : Bool
  deriving DecidableEq

/-- Modelled from the spec: internal dynamic router.  The field set is the
one written by `From<DynamicRouter> for data_model::DynamicEdgeRouter`. -/
structure DynamicEdgeRouter where
  name : String
  source_fn : String
  description : String
  target_functions : List String
  deriving DecidableEq

/-- Modelled from the spec: the internal node, a closed sum of the two
variants matched by the conversions in `http_objects.rs`. -/
inductive Node where
  | Router (router : DynamicEdgeRouter) : Node
  | Compute (compute : ComputeFn) : Node
  deriving DecidableEq

/-- Modelled from the spec: uniform read-only name projection on the
internal node, mirroring the wire-side `Node::name`. -/
def Node.name : Node → String
  | Node.Router d => d.name
  | Node.Compute c => c.name

/-- Modelled from the spec: an opaque, comparable graph-version identifier
with a `Default::default()` value. -/
structure GraphVersion where
  value : Nat
  deriving DecidableEq

/-- Modelled from the spec: the `Default::default()` graph version minted
on the inbound conversion path. -/
def GraphVersion.default : GraphVersion := { value := 0 }

/-- Modelled from the spec: the artifact descriptor, with the three fields
`into_data_model` populates from its arguments. -/
structure ComputeGraphCode where
  sha256_hash : String
  size : Nat
  path : String
  deriving DecidableEq

/-- Modelled from the spec: the internal compute graph, with the field set
written by `ComputeGraph::into_data_model`. -/
structure ComputeGraph where
  name : String
  «namespace» : String
  description : String
  start_fn : Node
  version : GraphVersion
  code : ComputeGraphCode
  nodes : List (String × Node)
  edges : List (String × List String)
  created_at : Nat
  deriving DecidableEq

end data_model

/-! ### Wire types and conversions (src/src/http_objects.rs lines 86-257) -/

namespace http_objects

structure ComputeFn where
  name : String
  fn_name : String
  description : String
  reducer : Bool
  deriving DecidableEq

/-- Mirrors `impl From<&ComputeFn> for data_model::ComputeFn` (lines 94-104). -/
def ComputeFn.ref_into_data_model (val : ComputeFn) : data_model.ComputeFn :=
  { name := val.name
    fn_name := val.fn_name
    description := val.description
    placement_constraints := data_model.defaultPlacementConstraints
    reducer := val.reducer }

/-- Mirrors `impl From<ComputeFn> for data_model::ComputeFn` (lines 106-116). -/
def ComputeFn.into_data_model (val : ComputeFn) : data_model.ComputeFn :=
  { name := val.name
    fn_name := val.fn_name
    description := val.description
    placement_constraints := data_model.defaultPlacementConstraints
    reducer := val.reducer }

/-- Mirrors `impl From<data_model::ComputeFn> for ComputeFn` (lines 118-127). -/
def ComputeFn.from_data_model (c : data_model.ComputeFn) : ComputeFn :=
  { name := c.name
    fn_name := c.fn_name
    description := c.description
    reducer := c.reducer }

structure DynamicRouter where
  name : String
  source_fn : String
  description : String
  target_fns : List String
  deriving DecidableEq

/-- Mirrors `impl From<DynamicRouter> for data_model::DynamicEdgeRouter`
(lines 137-146). -/
def DynamicRouter.into_data_model (val : DynamicRouter) : data_model.DynamicEdgeRouter :=
  { name := val.name
    source_fn := val.source_fn
    description := val.description
    target_functions := val.target_fns }

/-- Mirrors `impl From<data_model::DynamicEdgeRouter> for DynamicRouter`
(lines 148-157). -/
def DynamicRouter.from_data_model (d : data_model.DynamicEdgeRouter) : DynamicRouter :=
  { name := d.name
    source_fn := d.source_fn
    description := d.description
    target_fns := d.target_functions }

/-- The wire node (lines 159-165): a closed sum with serde tags
`"dynamic_router"` and `"compute_fn"`. -/
inductive Node where
  | DynamicRouter (d : DynamicRouter) : Node
  | ComputeFn (c : ComputeFn) : Node
  deriving DecidableEq

/-- Mirrors `Node::name` (lines 167-174). -/
def Node.name : Node → String
  | Node.DynamicRouter d => d.name
  | Node.ComputeFn c => c.name

/-- Mirrors `impl From<Node> for data_model::Node` (lines 176-183). -/
def Node.into_data_model : Node → data_model.Node
  | Node.DynamicRouter d => data_model.Node.Router d.into_data_model
  | Node.ComputeFn c => data_model.Node.Compute c.into_data_model

/-- Mirrors `impl From<data_model::Node> for Node` (lines 185-192). -/
def Node.from_data_model : data_model.Node → Node
  | data_model.Node.Router d => Node.DynamicRouter (DynamicRouter.from_data_model d)
  | data_model.Node.Compute c => Node.ComputeFn (ComputeFn.from_data_model c)

/-- The wire compute graph (lines 194-204).  `created_at` carries the
serde default `get_epoch_time_in_ms` on deserialization. -/
structure ComputeGraph where
  name : String
  «namespace» : String
  description : String
  start_node : Node
  nodes : List (String × Node)
  edges : List (String × List String)
  created_at : Nat
  deriving DecidableEq

/-- Mirrors `ComputeGraph::into_data_model` (lines 206-235): the inbound
wire-to-internal conversion, supplied with the artifact path, hash and
size.  The source iterates `self.nodes` inserting each converted entry
into a fresh map, converts the start node, fixes `version` to the default
and `created_at` to `0`, and always returns `Ok`. -/
def ComputeGraph.into_data_model (self : ComputeGraph) (code_path : String)
    (sha256_hash : String) (size : Nat) :
    Except IndexifyAPIError data_model.ComputeGraph :=
  let nodes := self.nodes.map (fun p => (p.1, Node.into_data_model p.2))
  let start_fn : data_model.Node := Node.into_data_model self.start_node
  let compute_graph : data_model.ComputeGraph :=
    { name := self.name
      «namespace» := self.«namespace»
      description := self.description
      start_fn := start_fn
      version := data_model.GraphVersion.default
      code :=
        { sha256_hash := sha256_hash
          size := size
          path := code_path }
      nodes := nodes
      edges := self.edges
      created_at := 0 }
  Except.ok compute_graph

/-- Mirrors `impl From<data_model::ComputeGraph> for ComputeGraph` (lines 237-257):
the outbound internal-to-wire conversion; the start node is converted by an
inline match in the source, each map entry by `into`. -/
def ComputeGraph.from_data_model (compute_graph : data_model.ComputeGraph) : ComputeGraph :=
  let start_fn :=
    match compute_graph.start_fn with
    | data_model.Node.Router d => Node.DynamicRouter (DynamicRouter.from_data_model d)
    | data_model.Node.Compute c => Node.ComputeFn (ComputeFn.from_data_model c)
  { name := compute_graph.name
    «namespace» := compute_graph.«namespace»
    description := compute_graph.description
    start_node := start_fn
    nodes := compute_graph.nodes.map (fun p => (p.1, Node.from_data_model p.2))
    edges := compute_graph.edges
    created_at := compute_graph.created_at }

end http_objects

/-! ### The serde-derived wire codec.

Modelled from the spec: the codec is generated by serde derive macros, not
written out in the shown source.  A node is an externally tagged enum — a
single-key object whose key is the variant tag — and an unknown tag is a
deserialization error.  Struct fields are required unless they carry a
serde default; `created_at` carries `get_epoch_time_in_ms`, modelled here
by the `now` parameter. -/

/-- Required-field lookup: a missing field is a deserialization error. -/
def getField (fields : List (String × Json)) (key : String) : Except String Json :=
  match List.lookup key fields with
  | some v => Except.ok v
  | none => Except.error ("missing field " ++ key)

def asStr : Json → Except String String
  | Json.str s => Except.ok s
  | _ => Except.error "invalid type: expected a string"

def asBool : Json → Except String Bool
  | Json.bool b => Except.ok b
  | _ => Except.error "invalid type: expected a boolean"

def asU64 : Json → Except String Nat
  | Json.num n =>
      if n < 2 ^ 64 then Except.ok n
      else Except.error "invalid value: integer out of range for u64"
  | _ => Except.error "invalid type: expected an unsigned integer"

def asStrList : Json → Except String (List String)
  | Json.arr elems =>
      let rec go : List Json → Except String (List String)
        | [] => Except.ok []
        | x :: rest => do
            let s ← asStr x
            let r ← go rest
            Except.ok (s :: r)
      go elems
  | _ => Except.error "invalid type: expected an array of strings"

namespace http_objects

/-- Modelled from the spec: serde-derived deserializer of the wire
`ComputeFn` payload. -/
def ComputeFn.deserialize (j : Json) : Except String ComputeFn :=
  match j with
  | Json.obj fields => do
      let name ← getField fields "name" >>= asStr
      let fn_name ← getField fields "fn_name" >>= asStr
      let description ← getField fields "description" >>= asStr
      let reducer ← getField fields "reducer" >>= asBool
      Except.ok { name := name, fn_name := fn_name, description := description, reducer := reducer }
  | _ => Except.error "invalid type: expected struct ComputeFn"

/-- Modelled from the spec: serde-derived deserializer of the wire
`DynamicRouter` payload. -/
def DynamicRouter.deserialize (j : Json) : Except String DynamicRouter :=
  match j with
  | Json.obj fields => do
      let name ← getField fields "name" >>= asStr
      let source_fn ← getField fields "source_fn" >>= asStr
      let description ← getField fields "description" >>= asStr
      let target_fns ← getField fields "target_fns" >>= asStrList
      Except.ok { name := name, source_fn := source_fn, description := description, target_fns := target_fns }
  | _ => Except.error "invalid type: expected struct DynamicRouter"

/-- Modelled from the spec: serde-derived deserializer of the externally
tagged `Node` enum.  The single key is the sole variant discriminator;
`"compute_fn"` and `"dynamic_router"` are the only accepted tags and any
other tag is an unknown-variant error. -/
def Node.deserialize (j : Json) : Except String Node :=
  match j with
  | Json.obj [(tag, payload)] =>
      if tag = "compute_fn" then do
        let c ← ComputeFn.deserialize payload
        Except.ok (Node.ComputeFn c)
      else if tag = "dynamic_router" then do
        let d ← DynamicRouter.deserialize payload
        Except.ok (Node.DynamicRouter d)
      else
        Except.error ("unknown variant " ++ tag ++ ", expected compute_fn or dynamic_router")
  | _ => Except.error "invalid type: expected externally tagged enum Node as a single-key map"

/-- Deserializes the values of the `nodes` object, preserving keys. -/
def deserializeNodeEntries : List (String × Json) → Except String (List (String × Node))
  | [] => Except.ok []
  | (k, v) :: rest => do
      let n ← Node.deserialize v
      let r ← deserializeNodeEntries rest
      Except.ok ((k, n) :: r)

/-- Deserializes the values of the `edges` object, preserving keys. -/
def deserializeEdgeEntries : List (String × Json) → Except String (List (String × List String))
  | [] => Except.ok []
  | (k, v) :: rest => do
      let dests ← asStrList v
      let r ← deserializeEdgeEntries rest
      Except.ok ((k, dests) :: r)

/-- Modelled from the spec: serde-derived deserializer of the wire
`ComputeGraph`.  Every field is required except `created_at`, whose serde
default calls `get_epoch_time_in_ms`; that current time is the `now`
parameter. -/
def getNodeMap (fields : List (String × Json)) : Except String (List (String × Node)) :=
  match getField fields "nodes" with
  | Except.error e => Except.error e
  | Except.ok (Json.obj entries) => deserializeNodeEntries entries
  | Except.ok _ => Except.error "invalid type: expected a map of nodes"

def getEdgeMap (fields : List (String × Json)) : Except String (List (String × List String)) :=
  match getField fields "edges" with
  | Except.error e => Except.error e
  | Except.ok (Json.obj entries) => deserializeEdgeEntries entries
  | Except.ok _ => Except.error "invalid type: expected a map of edges"

/-- The serde default on `created_at`: an absent field is replaced by the
current epoch milliseconds, the `now` parameter. -/
def getCreatedAt (now : Nat) (fields : List (String × Json)) : Except String Nat :=
  match List.lookup "created_at" fields with
  | some v => asU64 v
  | none => Except.ok now

def ComputeGraph.deserialize (now : Nat) (j : Json) : Except String ComputeGraph :=
  match j with
  | Json.obj fields => do
      let name ← getField fields "name" >>= asStr
      let ns ← getField fields "namespace" >>= asStr
      let description ← getField fields "description" >>= asStr
      let start_node ← getField fields "start_node" >>= Node.deserialize
      let nodes ← getNodeMap fields
      let edges ← getEdgeMap fields
      let created_at ← getCreatedAt now fields
      Except.ok
        { name := name
          «namespace» := ns
          description := description
          start_node := start_node
          nodes := nodes
          edges := edges
          created_at := created_at }
  | _ => Except.error "invalid type: expected struct ComputeGraph"

/-- Modelled from the spec: serde-derived serializer of the wire
`ComputeFn`. -/
def ComputeFn.serialize (c : ComputeFn) : Json :=
  Json.obj
    [("name", Json.str c.name),
     ("fn_name", Json.str c.fn_name),
     ("description", Json.str c.description),
     ("reducer", Json.bool c.reducer)]

/-- Modelled from the spec: serde-derived serializer of the wire
`DynamicRouter`. -/
def DynamicRouter.serialize (d : DynamicRouter) : Json :=
  Json.obj
    [("name", Json.str d.name),
     ("source_fn", Json.str d.source_fn),
     ("description", Json.str d.description),
     ("target_fns", Json.arr (d.target_fns.map Json.str))]

/-- Modelled from the spec: serde-derived serializer of the externally
tagged `Node` enum. -/
def Node.serialize : Node → Json
  | Node.DynamicRouter d => Json.obj [("dynamic_router", d.serialize)]
  | Node.ComputeFn c => Json.obj [("compute_fn", c.serialize)]

/-- Modelled from the spec: serde-derived serializer of the wire
`ComputeGraph`.  Every field is emitted, `created_at` included: serde
defaults affect only deserialization. -/
def ComputeGraph.serialize (g : ComputeGraph) : Json :=
  Json.obj
    [("name", Json.str g.name),
     ("namespace", Json.str g.«namespace»),
     ("description", Json.str g.description),
     ("start_node", g.start_node.serialize),
     ("nodes", Json.obj (g.nodes.map (fun p => (p.1, p.2.serialize)))),
     ("edges", Json.obj (g.edges.map (fun p => (p.1, Json.arr (p.2.map Json.str))))),
     ("created_at", Json.num g.created_at)]

end http_objects

/-! ### Auxiliary predicates and concrete inputs -/

/-- Whether an internal node carries the default (empty) placement
constraints, i.e. the part of an internal node that the wire form can
represent at all. -/
def data_model.Node.has_default_placement : data_model.Node → Bool
  | data_model.Node.Router _ => true
  | data_model.Node.Compute c =>
      decide (c.placement_constraints = data_model.defaultPlacementConstraints)

/-- Whether every compute function of an internal graph (start node and
node map alike) carries the default placement constraints. -/
def data_model.ComputeGraph.wire_faithful (g : data_model.ComputeGraph) : Bool :=
  g.start_fn.has_default_placement && g.nodes.all (fun p => p.2.has_default_placement)

/-- A concrete wire compute function, taken from the deserialization test
of the source file. -/
def computeFnA : http_objects.ComputeFn :=
  { name := "extractor_a", fn_name := "extractor_a", description := "", reducer := false }

/-- A concrete one-node wire graph. -/
def graph0 : http_objects.ComputeGraph :=
  { name := "test"
    «namespace» := "test"
    description := "test"
    start_node := http_objects.Node.ComputeFn computeFnA
    nodes := [("extractor_a", http_objects.Node.ComputeFn computeFnA)]
    edges := [("extractor_a", [])]
    created_at := 1234 }

/-- The JSON payload of `computeFnA`. -/
def computeFnAJson : Json :=
  Json.obj
    [("name", Json.str "extractor_a"),
     ("fn_name", Json.str "extractor_a"),
     ("description", Json.str ""),
     ("reducer", Json.bool false)]

/-- The JSON fields of `graph0` with the `created_at` field absent. -/
def graphJson0 : List (String × Json) :=
  [("name", Json.str "test"),
   ("namespace", Json.str "test"),
   ("description", Json.str "test"),
   ("start_node", Json.obj [("compute_fn", computeFnAJson)]),
   ("nodes", Json.obj [("extractor_a", Json.obj [("compute_fn", computeFnAJson)])]),
   ("edges", Json.obj [("extractor_a", Json.arr [])])]

/-- The internal image of `graph0` under `into_data_model` with artifact
path `"p"`, hash `"h"` and size `3`. -/
def internalGraph0 : data_model.ComputeGraph :=
  { name := "test"
    «namespace» := "test"
    description := "test"
    start_fn := data_model.Node.Compute
      { name := "extractor_a", fn_name := "extractor_a", description := ""
        placement_constraints := [], reducer := false }
    version := data_model.GraphVersion.default
    code := { sha256_hash := "h", size := 3, path := "p" }
    nodes := [("extractor_a", data_model.Node.Compute
      { name := "extractor_a", fn_name := "extractor_a", description := ""
        placement_constraints := [], reducer := false })]
    edges := [("extractor_a", [])]
    created_at := 0 }

/-- A concrete internal compute function with non-default placement
constraints. -/
def pinnedFn : data_model.ComputeFn :=
  { name := "a", fn_name := "a", description := ""
    placement_constraints := ["gpu"], reducer := false }

/-- A concrete internal graph whose single node carries non-default
placement constraints. -/
def pinnedGraph : data_model.ComputeGraph :=
  { name := "g"
    «namespace» := "ns"
    description := ""
    start_fn := data_model.Node.Compute pinnedFn
    version := data_model.GraphVersion.default
    code := { sha256_hash := "h", size := 1, path := "p" }
    nodes := [("a", data_model.Node.Compute pinnedFn)]
    edges := []
    created_at := 5 }

/-- A concrete wire graph whose node map stores, under key `"a"`, a node
whose declared name is `"b"`. -/
def mismatchedGraph : http_objects.ComputeGraph :=
  { name := "g"
    «namespace» := "ns"
    description := ""
    start_node := http_objects.Node.ComputeFn
      { name := "b", fn_name := "b", description := "", reducer := false }
    nodes := [("a", http_objects.Node.ComputeFn
      { name := "b", fn_name := "b", description := "", reducer := false })]
    edges := []
    created_at := 7 }

deriving instance DecidableEq for Except

/-! ### Helper lemmas -/

theorem bind_ok {α β : Type} {x : Except String α} {f : α → Except String β} {b : β}
    (h : (x >>= f) = Except.ok b) : ∃ a, x = Except.ok a ∧ f a = Except.ok b := by
  cases x with
  | error e => exact Except.noConfusion h
  | ok a => exact ⟨a, rfl, h⟩

theorem node_from_into (n : data_model.Node) (h : n.has_default_placement = true) :
    http_objects.Node.into_data_model (http_objects.Node.from_data_model n) = n := by
  cases n with
  | Router d => rfl
  | Compute c =>
      have hc : c.placement_constraints = data_model.defaultPlacementConstraints :=
        of_decide_eq_true h
      simp only [http_objects.Node.from_data_model, http_objects.Node.into_data_model,
        http_objects.ComputeFn.from_data_model, http_objects.ComputeFn.into_data_model]
      rw [← hc]

theorem nodes_from_into (l : List (String × data_model.Node))
    (h : l.all (fun p => p.2.has_default_placement) = true) :
    (l.map (fun p => (p.1, http_objects.Node.from_data_model p.2))).map
      (fun p => (p.1, http_objects.Node.into_data_model p.2)) = l := by
  induction l with
  | nil => rfl
  | cons hd tl ih =>
      rw [List.all_cons, Bool.and_eq_true] at h
      rw [List.map_cons, List.map_cons, ih h.2]
      cases hd with
      | mk k n => rw [node_from_into n h.1]

/-! ### Claim theorems -/

/-- C4: the wire-to-internal conversion performs no referential-integrity
validation: for every wire graph, whatever its edges or start node
reference, and every artifact triple, `into_data_model` returns `Ok`. -/
theorem C4_conversion_always_ok (g : http_objects.ComputeGraph)
    (code_path sha256_hash : String) (size : Nat) :
    ∃ dm, g.into_data_model code_path sha256_hash size = Except.ok dm :=
  ⟨_, rfl⟩

/-- C6: the error kinds are distinct and never conflated: `bad_request`
is status 400, `internal_error` and `internal_error_str` are status 500,
`not_found` is status 404, and a serde_json error converts to a 400
carrying the parser message. -/
theorem C6_error_statuses (msg e : String) :
    (IndexifyAPIError.bad_request msg).status_code = StatusCode.BAD_REQUEST ∧
    (IndexifyAPIError.internal_error e).status_code = StatusCode.INTERNAL_SERVER_ERROR ∧
    (IndexifyAPIError.internal_error_str msg).status_code = StatusCode.INTERNAL_SERVER_ERROR ∧
    (IndexifyAPIError.not_found msg).status_code = StatusCode.NOT_FOUND ∧
    IndexifyAPIError.from_serde_json_error msg = IndexifyAPIError.bad_request msg ∧
    (IndexifyAPIError.from_serde_json_error msg).status_code = StatusCode.BAD_REQUEST ∧
    (IndexifyAPIError.from_serde_json_error msg).message = msg :=
  ⟨rfl, rfl, rfl, rfl, rfl, rfl, rfl⟩

/-- C7: `Node::name` returns the name field of the payload of either
variant, a pure read-only projection needing no caller-side
discrimination. -/
theorem C7_node_name_projection (d : http_objects.DynamicRouter) (c : http_objects.ComputeFn) :
    http_objects.Node.name (http_objects.Node.DynamicRouter d) = d.name ∧
    http_objects.Node.name (http_objects.Node.ComputeFn c) = c.name :=
  ⟨rfl, rfl⟩

/-- C9: converting a wire node to the internal representation and back is
the identity, for both variants. -/
theorem C9_node_wire_round_trip (n : http_objects.Node) :
    http_objects.Node.from_data_model (http_objects.Node.into_data_model n) = n := by
  cases n <;> rfl

/-- C10: both wire-to-internal compute-function conversions set
`placement_constraints` to its default, so an internal-to-wire-to-internal
pass erases any non-default placement constraints. -/
theorem C10_placement_constraints_erased (c : http_objects.ComputeFn)
    (m : data_model.ComputeFn) :
    (http_objects.ComputeFn.into_data_model c).placement_constraints
        = data_model.defaultPlacementConstraints ∧
    (http_objects.ComputeFn.ref_into_data_model c).placement_constraints
        = data_model.defaultPlacementConstraints ∧
    http_objects.ComputeFn.into_data_model (http_objects.ComputeFn.from_data_model m)
        = { m with placement_constraints := data_model.defaultPlacementConstraints } :=
  ⟨rfl, rfl, rfl⟩

/-- C1 (amended): for every internal graph all of whose compute functions
carry the default placement constraints, converting to the wire form and
back with the same artifact hash, size and path yields the graph itself,
with `version` and `created_at` fixed to the values the inbound path
populates.  (The unamended claim fails: non-default placement constraints
are erased, see the counterexample.) -/
theorem C1_round_trip_amended (G : data_model.ComputeGraph)
    (h : G.wire_faithful = true) :
    (http_objects.ComputeGraph.from_data_model G).into_data_model
        G.code.path G.code.sha256_hash G.code.size
      = Except.ok
          { G with version := data_model.GraphVersion.default, created_at := 0 } := by
  rw [data_model.ComputeGraph.wire_faithful, Bool.and_eq_true] at h
  obtain ⟨h1, h2⟩ := h
  cases G with
  | mk name ns description start_fn version code nodes edges created_at =>
  cases code with
  | mk sha size path =>
  have hnodes := nodes_from_into nodes h2
  cases start_fn with
  | Router d =>
      have hstart : http_objects.Node.into_data_model
            (http_objects.Node.DynamicRouter (http_objects.DynamicRouter.from_data_model d))
          = data_model.Node.Router d :=
        node_from_into (data_model.Node.Router d) h1
      simp only [http_objects.ComputeGraph.from_data_model,
        http_objects.ComputeGraph.into_data_model]
      rw [hnodes, hstart]
  | Compute c =>
      have hstart : http_objects.Node.into_data_model
            (http_objects.Node.ComputeFn (http_objects.ComputeFn.from_data_model c))
          = data_model.Node.Compute c :=
        node_from_into (data_model.Node.Compute c) h1
      simp only [http_objects.ComputeGraph.from_data_model,
        http_objects.ComputeGraph.into_data_model]
      rw [hnodes, hstart]

/-- C1 witness: the round trip at a concrete placement-free graph. -/
theorem C1_round_trip_amended_witness :
    data_model.ComputeGraph.wire_faithful internalGraph0 = true ∧
    (http_objects.ComputeGraph.from_data_model internalGraph0).into_data_model
        internalGraph0.code.path internalGraph0.code.sha256_hash internalGraph0.code.size
      = Except.ok
          { internalGraph0 with version := data_model.GraphVersion.default, created_at := 0 } :=
  ⟨rfl, C1_round_trip_amended internalGraph0 rfl⟩

/-- C1 counterexample: at `pinnedGraph`, whose node carries the placement
constraint `"gpu"`, the wire round trip with the same artifact triple does
not return the graph itself even with `version` and `created_at` held
fixed: the placement constraints come back as the default. -/
theorem C1_round_trip_counterexample :
    (http_objects.ComputeGraph.from_data_model pinnedGraph).into_data_model
        pinnedGraph.code.path pinnedGraph.code.sha256_hash pinnedGraph.code.size
      ≠ Except.ok
          { pinnedGraph with version := data_model.GraphVersion.default, created_at := 0 } := by
  decide

/-- C2 (amended): `into_data_model` performs no name-consistency check.
Every submission is accepted, the node map keeps every key with the
converted node stored under it, and node names are preserved by the
conversion — so a node stored under key `k` with a different declared name
is neither rejected, nor renamed, nor re-keyed. -/
theorem C2_no_name_check_amended (g : http_objects.ComputeGraph)
    (code_path sha256_hash : String) (size : Nat) :
    g.into_data_model code_path sha256_hash size =
      Except.ok
        { name := g.name
          «namespace» := g.«namespace»
          description := g.description
          start_fn := g.start_node.into_data_model
          version := data_model.GraphVersion.default
          code := { sha256_hash := sha256_hash, size := size, path := code_path }
          nodes := g.nodes.map (fun p => (p.1, p.2.into_data_model))
          edges := g.edges
          created_at := 0 } ∧
    ∀ n : http_objects.Node, (http_objects.Node.into_data_model n).name = n.name := by
  refine ⟨rfl, ?_⟩
  intro n
  cases n <;> rfl

/-- C2 counterexample: `mismatchedGraph` stores under key `"a"` a node
whose declared name is `"b"`, and the conversion accepts it. -/
theorem C2_name_mismatch_counterexample :
    (List.lookup "a" mismatchedGraph.nodes).map http_objects.Node.name = some "b" ∧
    (mismatchedGraph.into_data_model "p" "h" 1).isOk = true :=
  ⟨rfl, rfl⟩

/-- C8: the inbound conversion fixes `version` to the default graph
version and `created_at` to `0`, whatever the wire submission carried. -/
theorem C8_inbound_version_created_at (g : http_objects.ComputeGraph)
    (code_path sha256_hash : String) (size : Nat) (dm : data_model.ComputeGraph)
    (h : g.into_data_model code_path sha256_hash size = Except.ok dm) :
    dm.version = data_model.GraphVersion.default ∧ dm.created_at = 0 := by
  have hg := Except.ok.inj h
  rw [← hg]
  exact ⟨rfl, rfl⟩

/-- C8 witness: the conversion at `graph0`, whose wire `created_at` is
1234, yields the default version and `created_at = 0`. -/
theorem C8_inbound_witness :
    http_objects.ComputeGraph.into_data_model graph0 "p" "h" 3 = Except.ok internalGraph0 ∧
    (internalGraph0.version = data_model.GraphVersion.default ∧ internalGraph0.created_at = 0) :=
  ⟨rfl, C8_inbound_version_created_at graph0 "p" "h" 3 internalGraph0 rfl⟩

/-- C3: the single tag of the externally tagged node encoding uniquely
determines the variant: `"compute_fn"` yields the compute variant,
`"dynamic_router"` the router variant, and any other tag is rejected with
an error whose conversion is a client-fault 400, not accepted or ignored. -/
theorem C3_tag_determines_variant :
    (∀ payload n, http_objects.Node.deserialize (Json.obj [("compute_fn", payload)])
          = Except.ok n → ∃ c, n = http_objects.Node.ComputeFn c) ∧
    (∀ payload n, http_objects.Node.deserialize (Json.obj [("dynamic_router", payload)])
          = Except.ok n → ∃ d, n = http_objects.Node.DynamicRouter d) ∧
    (∀ tag payload, tag ≠ "compute_fn" → tag ≠ "dynamic_router" →
        ∃ msg, http_objects.Node.deserialize (Json.obj [(tag, payload)]) = Except.error msg ∧
          (IndexifyAPIError.from_serde_json_error msg).status_code = StatusCode.BAD_REQUEST) := by
  refine ⟨?_, ?_, ?_⟩
  · intro payload n h
    simp only [http_objects.Node.deserialize, if_pos] at h
    obtain ⟨c, _, hok⟩ := bind_ok h
    exact ⟨c, (Except.ok.inj hok).symm⟩
  · intro payload n h
    simp only [http_objects.Node.deserialize] at h
    rw [if_pos trivial] at h
    obtain ⟨d, _, hok⟩ := bind_ok h
    exact ⟨d, (Except.ok.inj hok).symm⟩
  · intro tag payload h1 h2
    refine ⟨"unknown variant " ++ tag ++ ", expected compute_fn or dynamic_router", ?_, rfl⟩
    simp only [http_objects.Node.deserialize]
    rw [if_neg h1, if_neg h2]

/-- C3 witness: the tag `"unknown_kind"` is rejected with a 400-converting
error. -/
theorem C3_unknown_tag_witness :
    ∃ msg, http_objects.Node.deserialize (Json.obj [("unknown_kind", Json.null)])
        = Except.error msg ∧
      (IndexifyAPIError.from_serde_json_error msg).status_code = StatusCode.BAD_REQUEST :=
  C3_tag_determines_variant.2.2 "unknown_kind" Json.null (by decide) (by decide)

/-- C5: when the `created_at` field is absent from a wire graph
submission, deserialization assigns it the current epoch milliseconds (the
`now` parameter standing for `get_epoch_time_in_ms`), and serialization of
a wire graph always emits the `created_at` field. -/
theorem C5_created_at_default :
    (∀ now fields g, List.lookup "created_at" fields = none →
        http_objects.ComputeGraph.deserialize now (Json.obj fields) = Except.ok g →
        g.created_at = now) ∧
    (∀ g : http_objects.ComputeGraph,
        Json.lookupField (http_objects.ComputeGraph.serialize g) "created_at"
          = some (Json.num g.created_at)) := by
  constructor
  · intro now fields g hnone hok
    simp only [http_objects.ComputeGraph.deserialize] at hok
    obtain ⟨name, _, hok⟩ := bind_ok hok
    obtain ⟨ns, _, hok⟩ := bind_ok hok
    obtain ⟨description, _, hok⟩ := bind_ok hok
    obtain ⟨start_node, _, hok⟩ := bind_ok hok
    obtain ⟨nodes, _, hok⟩ := bind_ok hok
    obtain ⟨edges, _, hok⟩ := bind_ok hok
    obtain ⟨created, h7, hok⟩ := bind_ok hok
    rw [http_objects.getCreatedAt, hnone] at h7
    have hcreated : now = created := Except.ok.inj h7
    have hg := Except.ok.inj hok
    rw [← hg]
    exact hcreated.symm
  · intro g
    rfl

/-- C5 witness: deserializing `graphJson0`, which has no `created_at`
field, with the current time 1234 yields `graph0` with
`created_at = 1234`; and `created_at` is present on the serialized form. -/
theorem C5_created_at_default_witness :
    List.lookup "created_at" graphJson0 = none ∧
    http_objects.ComputeGraph.deserialize 1234 (Json.obj graphJson0) = Except.ok graph0 ∧
    graph0.created_at = 1234 ∧
    Json.lookupField (http_objects.ComputeGraph.serialize graph0) "created_at"
      = some (Json.num 1234) :=
  ⟨rfl, rfl, C5_created_at_default.1 1234 graphJson0 graph0 rfl rfl,
    C5_created_at_default.2 graph0⟩

end Indexify
